import Mathlib

/-!
# Verification of the taxonomic-rank vocabulary (`src/rank.rs`)

A shallow embedding of the `TaxRank` enum and its two conversions:
`to_ncbi_rank` (rank → canonical NCBI string) and `from_str`
(string → rank, trimming whitespace and lower-casing before an exact
table lookup, failing with `UnrecognizedRank` carrying the original
input). The theorems establish the round-trip, totality, normalization
and error-handling properties of these conversions.
-/

set_option autoImplicit false

namespace Taxonomy

/-- The `TaxRank` enum from `src/rank.rs`, in declaration order, including
the `Unspecified` sentinel and the hidden `__Nonexhaustive` variant. -/
inductive TaxRank where
  | Domain
  | Subdomain
  | Realm
  | Subrealm
  | Hyperkingdom
  | Superkingdom
  | Kingdom
  | Subkingdom
  | Infrakingdom
  | Parvkingdom
  | Superphylum
  | Phylum
  | Subphylum
  | Infraphylum
  | Microphylum
  | Superclass
  | Class
  | Subclass
  | Infraclass
  | Parvclass
  | Superdivision
  | Division
  | Subdivision
  | Infradivision
  | Superlegion
  | Legion
  | Sublegion
  | Infralegion
  | Supercohort
  | Cohort
  | Subcohort
  | Infracohort
  | Superorder
  | Gigaorder
  | Magnorder
  | Grandorder
  | Mirorder
  | SeriesFish
  | Order
  | Nanorder
  | Hypoorder
  | Suborder
  | Infraorder
  | Parvorder
  | Section
  | Subsection
  | Gigafamily
  | Megafamily
  | Grandfamily
  | Hyperfamily
  | Superfamily
  | Epifamily
  | SeriesLepidoptera
  | GroupLepidoptera
  | Family
  | Subfamily
  | Infrafamily
  | Supertribe
  | Tribe
  | Subtribe
  | Infratribe
  | Genus
  | Subgenus
  | SeriesBotany
  | SubseriesBotany
  | SpeciesGroup
  | SpeciesSubgroup
  | Species
  | Subspecies
  | Varietas
  | Subvarietas
  | Forma
  | Subforma
  | Cultivar
  | Breed
  | Strain
  | Individual
  | Unspecified
  | __Nonexhaustive
deriving DecidableEq, Repr, Fintype

/-- The crate error type as used by `from_str` in `src/rank.rs`
(`TaxonomyError::UnrecognizedRank { rank: String }`); this is the only
variant reachable from the rank module. -/
inductive TaxonomyError where
  | UnrecognizedRank (rank : String)
deriving DecidableEq, Repr

instance : DecidableEq (Except TaxonomyError TaxRank) := fun a b =>
  match a, b with
  | .ok x, .ok y =>
      if h : x = y then .isTrue (by rw [h]) else .isFalse (by simp [h])
  | .ok _, .error _ => .isFalse (by simp)
  | .error _, .ok _ => .isFalse (by simp)
  | .error e, .error f =>
      if h : e = f then .isTrue (by rw [h]) else .isFalse (by simp [h])

/-- Rust's `char::is_whitespace`: membership in the Unicode `White_Space`
set, written out as the explicit code-point list. -/
def rustIsWhitespace (c : Char) : Bool :=
  c.toNat = 0x09 || c.toNat = 0x0A || c.toNat = 0x0B || c.toNat = 0x0C ||
  c.toNat = 0x0D || c.toNat = 0x20 || c.toNat = 0x85 || c.toNat = 0xA0 ||
  c.toNat = 0x1680 ||
  (0x2000 ≤ c.toNat && c.toNat ≤ 0x200A) ||
  c.toNat = 0x2028 || c.toNat = 0x2029 || c.toNat = 0x202F ||
  c.toNat = 0x205F || c.toNat = 0x3000

/-- Rust's `str::trim`: drop leading and trailing whitespace characters. -/
def rustTrim (s : String) : String :=
  ⟨(((s.data.dropWhile rustIsWhitespace).reverse.dropWhile
      rustIsWhitespace).reverse)⟩

/-- Rust's `str::to_lowercase`, restricted to the per-character (ASCII)
case mapping, which covers every spelling the rank table contains. -/
def rustToLowercase (s : String) : String :=
  ⟨s.data.map Char.toLower⟩

namespace TaxRank

/-- `TaxRank::to_ncbi_rank` from `src/rank.rs`: the NCBI rank string for
the ranks NCBI models, `"no rank"` for `Unspecified` and for everything
else (the catch-all `_ => "no rank"` arm). -/
def to_ncbi_rank : TaxRank → String
  | Superkingdom => "superkingdom"
  | Kingdom => "kingdom"
  | Subkingdom => "subkingdom"
  | Superphylum => "superphylum"
  | Phylum => "phylum"
  | Subphylum => "subphylum"
  | Superclass => "superclass"
  | Class => "class"
  | Subclass => "subclass"
  | Infraclass => "infraclass"
  | Cohort => "cohort"
  | Superorder => "superorder"
  | Order => "order"
  | Suborder => "suborder"
  | Infraorder => "infraorder"
  | Parvorder => "parvorder"
  | Superfamily => "superfamily"
  | Family => "family"
  | Subfamily => "subfamily"
  | Tribe => "tribe"
  | Subtribe => "subtribe"
  | Genus => "genus"
  | Subgenus => "subgenus"
  | SpeciesGroup => "species group"
  | SpeciesSubgroup => "species subgroup"
  | Species => "species"
  | Subspecies => "subspecies"
  | Varietas => "varietas"
  | Forma => "forma"
  | Unspecified => "no rank"
  | _ => "no rank"

/-- `TaxRank::from_str` (the `FromStr` impl) from `src/rank.rs`: trim,
lower-case, then exact table lookup; on no match, fail with
`UnrecognizedRank` carrying the original input `s`. -/
def from_str (s : String) : Except TaxonomyError TaxRank :=
  match rustToLowercase (rustTrim s) with
  | "domain" | "regio" => .ok Domain
  | "subdomain" => .ok Subdomain
  | "superkingdom" => .ok Superkingdom
  | "kingdom" | "regnum" => .ok Kingdom
  | "subkingdom" | "subregnum" => .ok Subkingdom
  | "superphylum" | "superphyla" => .ok Superphylum
  | "phylum" | "phyla" | "divisio" => .ok Phylum
  | "subphylum" | "subphyla" | "subdivisio" => .ok Subphylum
  | "superclass" => .ok Superclass
  | "class" | "classis" => .ok Class
  | "subclass" | "subclassis" => .ok Subclass
  | "infraclass" => .ok Infraclass
  | "cohort" => .ok Cohort
  | "superorder" => .ok Superorder
  | "order" | "ordo" => .ok Order
  | "suborder" | "subordo" => .ok Suborder
  | "infraorder" => .ok Infraorder
  | "parvorder" => .ok Parvorder
  | "section" | "sectio" => .ok Section
  | "subsection" => .ok Subsection
  | "superfamily" => .ok Superfamily
  | "family" | "familia" => .ok Family
  | "subfamily" => .ok Subfamily
  | "tribe" | "subtribus" => .ok Tribe
  | "subtribe" => .ok Subtribe
  | "genus" | "genera" => .ok Genus
  | "subgenus" => .ok Subgenus
  | "species group" => .ok SpeciesGroup
  | "species subgroup" => .ok SpeciesSubgroup
  | "species" => .ok Species
  | "subspecies" => .ok Subspecies
  | "variety" | "varietas" => .ok Varietas
  | "form" | "forma" => .ok Forma
  | "subform" | "subforma" => .ok Subforma
  | "strain" => .ok Strain
  | "no rank" => .ok Unspecified
  | _ => .error (.UnrecognizedRank s)

end TaxRank

/-- The complete list of spellings recognized by the `from_str` match,
in source order. -/
def tableStrings : List String :=
  ["domain", "regio", "subdomain", "superkingdom", "kingdom", "regnum",
   "subkingdom", "subregnum", "superphylum", "superphyla", "phylum", "phyla",
   "divisio", "subphylum", "subphyla", "subdivisio", "superclass", "class",
   "classis", "subclass", "subclassis", "infraclass", "cohort", "superorder",
   "order", "ordo", "suborder", "subordo", "infraorder", "parvorder",
   "section", "sectio", "subsection", "superfamily", "family", "familia",
   "subfamily", "tribe", "subtribus", "subtribe", "genus", "genera",
   "subgenus", "species group", "species subgroup", "species", "subspecies",
   "variety", "varietas", "form", "forma", "subform", "subforma", "strain",
   "no rank"]

/-- The variants that appear as a result of some arm of the `from_str`
match, in source order. -/
def parseTableRanks : List TaxRank :=
  [.Domain, .Subdomain, .Superkingdom, .Kingdom, .Subkingdom, .Superphylum,
   .Phylum, .Subphylum, .Superclass, .Class, .Subclass, .Infraclass, .Cohort,
   .Superorder, .Order, .Suborder, .Infraorder, .Parvorder, .Section,
   .Subsection, .Superfamily, .Family, .Subfamily, .Tribe, .Subtribe, .Genus,
   .Subgenus, .SpeciesGroup, .SpeciesSubgroup, .Species, .Subspecies,
   .Varietas, .Forma, .Subforma, .Strain, .Unspecified]

/-- The variants given a name of their own by `to_ncbi_rank` (every arm
before the `Unspecified` and catch-all `"no rank"` arms), in source
order. -/
def ncbiNamedRanks : List TaxRank :=
  [.Superkingdom, .Kingdom, .Subkingdom, .Superphylum, .Phylum, .Subphylum,
   .Superclass, .Class, .Subclass, .Infraclass, .Cohort, .Superorder, .Order,
   .Suborder, .Infraorder, .Parvorder, .Superfamily, .Family, .Subfamily,
   .Tribe, .Subtribe, .Genus, .Subgenus, .SpeciesGroup, .SpeciesSubgroup,
   .Species, .Subspecies, .Varietas, .Forma]

/-- A character list made of whitespace only. -/
def wsOnly (l : List Char) : Prop := ∀ c ∈ l, rustIsWhitespace c = true

/-- `t` is `s` with (possibly empty) whitespace padding added on both
ends. -/
def wsPad (s t : String) : Prop :=
  ∃ w1 w2, wsOnly w1 ∧ wsOnly w2 ∧ t.data = w1 ++ s.data ++ w2

/-- `s` and `t` differ at most in letter case: they lower-case to the
same character sequence. -/
def caseEq (s t : String) : Prop :=
  s.data.map Char.toLower = t.data.map Char.toLower

lemma dropWhile_append_all {l1 l2 : List Char} (h : wsOnly l1) :
    (l1 ++ l2).dropWhile rustIsWhitespace = l2.dropWhile rustIsWhitespace := by
  rw [List.dropWhile_append, List.dropWhile_eq_nil_iff.mpr h]
  rfl

/-- Trimming ignores whitespace padding on either end. -/
lemma rustTrim_pad (s : String) (w1 w2 : List Char)
    (h1 : wsOnly w1) (h2 : wsOnly w2) :
    rustTrim ⟨w1 ++ s.data ++ w2⟩ = rustTrim s := by
  unfold rustTrim
  simp only [List.append_assoc]
  rw [dropWhile_append_all h1]
  rw [List.dropWhile_append]
  split
  · rename_i he
    rw [List.isEmpty_iff] at he
    rw [List.dropWhile_eq_nil_iff.mpr h2, he]
  · rw [List.reverse_append,
      dropWhile_append_all (fun c hc => h2 c (List.mem_reverse.mp hc))]

/-- Lower-casing a character does not change whether it is whitespace. -/
lemma ws_toLower (c : Char) :
    rustIsWhitespace (Char.toLower c) = rustIsWhitespace c := by
  simp only [Char.toLower]
  split
  · rename_i h
    obtain ⟨h65, h90⟩ := h
    have hc : rustIsWhitespace c = false := by
      simp only [rustIsWhitespace, Bool.or_eq_false_iff,
        decide_eq_false_iff_not, Bool.and_eq_false_iff]
      omega
    rw [hc]
    generalize hn : c.toNat = n at h65 h90 ⊢
    interval_cases n <;> decide
  · rfl

lemma map_toLower_dropWhile (l : List Char) :
    (l.dropWhile rustIsWhitespace).map Char.toLower
      = (l.map Char.toLower).dropWhile rustIsWhitespace := by
  rw [List.dropWhile_map]
  have h : rustIsWhitespace ∘ Char.toLower = rustIsWhitespace :=
    funext ws_toLower
  rw [h]

/-- The normalized form (`to_lowercase` after `trim`) equals the trim of
the lower-cased character sequence. -/
lemma norm_data (s : String) : (rustToLowercase (rustTrim s)).data =
    (((s.data.map Char.toLower).dropWhile rustIsWhitespace).reverse.dropWhile
      rustIsWhitespace).reverse := by
  simp only [rustToLowercase, rustTrim]
  rw [List.map_reverse, map_toLower_dropWhile, List.map_reverse,
    map_toLower_dropWhile]

lemma norm_of_caseEq (s t : String) (h : caseEq s t) :
    rustToLowercase (rustTrim s) = rustToLowercase (rustTrim t) := by
  have hs := norm_data s
  have ht := norm_data t
  unfold caseEq at h
  apply String.ext
  rw [hs, ht, h]

lemma norm_of_wsPad (s t : String) (h : wsPad s t) :
    rustToLowercase (rustTrim t) = rustToLowercase (rustTrim s) := by
  obtain ⟨w1, w2, h1, h2, hdata⟩ := h
  have ht : t = ⟨w1 ++ s.data ++ w2⟩ := String.ext hdata
  rw [ht, rustTrim_pad s w1 w2 h1 h2]

/-- Every call of `from_str` either hits the table (normalized input in
`tableStrings`, result one of `parseTableRanks`) or misses it and fails
with `UnrecognizedRank` carrying the original input. -/
lemma from_str_spec (s : String) :
    (rustToLowercase (rustTrim s) ∈ tableStrings ∧
      ∃ v, v ∈ parseTableRanks ∧ TaxRank.from_str s = .ok v) ∨
    (rustToLowercase (rustTrim s) ∉ tableStrings ∧
      TaxRank.from_str s = .error (.UnrecognizedRank s)) := by
  unfold TaxRank.from_str
  generalize rustToLowercase (rustTrim s) = t
  split
  all_goals first
  | exact Or.inl ⟨by decide, _, by decide, rfl⟩
  | exact Or.inr ⟨by simp_all [tableStrings], rfl⟩

/-- Two inputs with the same normalized form succeed on exactly the same
variants (their error results may still differ, as each carries its own
original input). -/
lemma from_str_ok_congr (s t : String)
    (h : rustToLowercase (rustTrim s) = rustToLowercase (rustTrim t))
    (v : TaxRank) :
    TaxRank.from_str s = .ok v ↔ TaxRank.from_str t = .ok v := by
  unfold TaxRank.from_str
  rw [h]
  generalize rustToLowercase (rustTrim t) = u
  split <;> simp

/-- C1: for every `TaxRank` variant `v` whose `to_ncbi_rank` result is not
`"no rank"`, parsing that result succeeds and returns exactly `v`. -/
theorem C1_ncbi_roundtrip (v : TaxRank) (h : v.to_ncbi_rank ≠ "no rank") :
    TaxRank.from_str v.to_ncbi_rank = .ok v := by
  cases v <;> first | exact absurd rfl h | decide

theorem C1_ncbi_roundtrip_witness :
    TaxRank.to_ncbi_rank .Species ≠ "no rank" ∧
    TaxRank.from_str (TaxRank.to_ncbi_rank .Species) = .ok .Species :=
  ⟨by decide, C1_ncbi_roundtrip .Species (by decide)⟩

/-- C2 counterexample: `Realm` is a publicly named variant (distinct from
`__Nonexhaustive`), yet no input string whatsoever parses to it, so the
parse table does not recognize a name for every public variant. -/
theorem C2_counterexample :
    TaxRank.Realm ≠ TaxRank.__Nonexhaustive ∧
    ∀ s : String, TaxRank.from_str s ≠ .ok TaxRank.Realm := by
  refine ⟨by decide, fun s h => ?_⟩
  rcases from_str_spec s with ⟨-, w, hw, he⟩ | ⟨-, he⟩
  · rw [he] at h
    obtain rfl : w = .Realm := by injection h
    exact absurd hw (by decide)
  · rw [he] at h
    exact absurd h (by simp)

/-- C2 amended: every variant that appears in the `from_str` table (36 of
the 78 public variants, `Unspecified` included) is reachable by parsing
some input string; the remaining 42 public variants are never
produced. -/
theorem C2_amended (v : TaxRank) (hv : v ∈ parseTableRanks) :
    ∃ s : String, TaxRank.from_str s = .ok v := by
  fin_cases hv
  · exact ⟨"domain", by decide⟩
  · exact ⟨"subdomain", by decide⟩
  · exact ⟨"superkingdom", by decide⟩
  · exact ⟨"kingdom", by decide⟩
  · exact ⟨"subkingdom", by decide⟩
  · exact ⟨"superphylum", by decide⟩
  · exact ⟨"phylum", by decide⟩
  · exact ⟨"subphylum", by decide⟩
  · exact ⟨"superclass", by decide⟩
  · exact ⟨"class", by decide⟩
  · exact ⟨"subclass", by decide⟩
  · exact ⟨"infraclass", by decide⟩
  · exact ⟨"cohort", by decide⟩
  · exact ⟨"superorder", by decide⟩
  · exact ⟨"order", by decide⟩
  · exact ⟨"suborder", by decide⟩
  · exact ⟨"infraorder", by decide⟩
  · exact ⟨"parvorder", by decide⟩
  · exact ⟨"section", by decide⟩
  · exact ⟨"subsection", by decide⟩
  · exact ⟨"superfamily", by decide⟩
  · exact ⟨"family", by decide⟩
  · exact ⟨"subfamily", by decide⟩
  · exact ⟨"tribe", by decide⟩
  · exact ⟨"subtribe", by decide⟩
  · exact ⟨"genus", by decide⟩
  · exact ⟨"subgenus", by decide⟩
  · exact ⟨"species group", by decide⟩
  · exact ⟨"species subgroup", by decide⟩
  · exact ⟨"species", by decide⟩
  · exact ⟨"subspecies", by decide⟩
  · exact ⟨"varietas", by decide⟩
  · exact ⟨"forma", by decide⟩
  · exact ⟨"subforma", by decide⟩
  · exact ⟨"strain", by decide⟩
  · exact ⟨"no rank", by decide⟩

theorem C2_amended_witness :
    TaxRank.Species ∈ parseTableRanks ∧
    ∃ s : String, TaxRank.from_str s = .ok TaxRank.Species :=
  ⟨by decide, C2_amended .Species (by decide)⟩

/-- C3: parsing fails exactly when the trimmed, lower-cased input matches
no table entry, and then the error is `UnrecognizedRank` carrying the
original (untrimmed, original-case) input; every input whose normalized
form is in the table succeeds. -/
theorem C3_unrecognized_error (s : String) :
    (rustToLowercase (rustTrim s) ∉ tableStrings →
      TaxRank.from_str s = .error (.UnrecognizedRank s)) ∧
    (rustToLowercase (rustTrim s) ∈ tableStrings →
      ∃ v, TaxRank.from_str s = .ok v) := by
  rcases from_str_spec s with ⟨hm, w, _, he⟩ | ⟨hm, he⟩
  · exact ⟨fun hn => absurd hm hn, fun _ => ⟨w, he⟩⟩
  · exact ⟨fun _ => he, fun hn => absurd hn hm⟩

theorem C3_unrecognized_error_witness :
    rustToLowercase (rustTrim "fake_data") ∉ tableStrings ∧
    TaxRank.from_str "fake_data" = .error (.UnrecognizedRank "fake_data") :=
  ⟨by decide, (C3_unrecognized_error "fake_data").1 (by decide)⟩

/-- C4: `to_ncbi_rank` is total and never fails: every variant (the
`Unspecified` sentinel included) yields a non-empty string, `Unspecified`
yields `"no rank"`, and every variant without an NCBI-recognized name
falls back to `"no rank"`. -/
theorem C4_to_ncbi_total :
    (∀ v : TaxRank, v.to_ncbi_rank ≠ "") ∧
    TaxRank.to_ncbi_rank .Unspecified = "no rank" ∧
    (∀ v : TaxRank, v ∉ ncbiNamedRanks → v.to_ncbi_rank = "no rank") := by
  refine ⟨by decide, rfl, fun v hv => ?_⟩
  cases v <;> first | rfl | exact absurd (by decide) hv

theorem C4_to_ncbi_total_witness :
    TaxRank.Realm ∉ ncbiNamedRanks ∧
    TaxRank.to_ncbi_rank .Realm = "no rank" :=
  ⟨by decide, C4_to_ncbi_total.2.2 .Realm (by decide)⟩

/-- C5 counterexample: full parse results are NOT invariant under
whitespace padding or case changes, because on unrecognized input the
error carries the original string: `" q "` is `"q"` padded with
whitespace and `"Q"` is `"q"` with its case changed, yet the parse
results differ. -/
theorem C5_counterexample :
    TaxRank.from_str "q" ≠ TaxRank.from_str " q " ∧
    TaxRank.from_str "Q" ≠ TaxRank.from_str "q" := by decide

/-- C5 amended: successful parses are insensitive to surrounding
whitespace and letter case — padding the input with whitespace or
changing letter case never changes which variant (if any) a parse
succeeds with (only the error payload can differ, carrying each original
input); in particular `parse " Species "`, `parse "species"` and
`parse "SPECIES"` are all equal, and matching is exact after
normalization: inputs differing in other characters, such as `"specie"`
or `"speciesx"`, are not conflated with `"species"` but rejected. -/
theorem C5_normalization :
    (∀ s t : String, wsPad s t → ∀ v : TaxRank,
      (TaxRank.from_str t = .ok v ↔ TaxRank.from_str s = .ok v)) ∧
    (∀ s t : String, caseEq s t → ∀ v : TaxRank,
      (TaxRank.from_str s = .ok v ↔ TaxRank.from_str t = .ok v)) ∧
    TaxRank.from_str " Species " = TaxRank.from_str "species" ∧
    TaxRank.from_str "species" = TaxRank.from_str "SPECIES" ∧
    TaxRank.from_str "specie" = .error (.UnrecognizedRank "specie") ∧
    TaxRank.from_str "speciesx" = .error (.UnrecognizedRank "speciesx") := by
  refine ⟨fun s t h v => from_str_ok_congr t s (norm_of_wsPad s t h) v,
    fun s t h v => from_str_ok_congr s t (norm_of_caseEq s t h) v,
    by decide, by decide, by decide, by decide⟩

theorem C5_normalization_witness :
    wsPad "Species" " Species " ∧
    (TaxRank.from_str " Species " = .ok .Species ↔
      TaxRank.from_str "Species" = .ok .Species) ∧
    caseEq "SPECIES" "species" ∧
    (TaxRank.from_str "SPECIES" = .ok .Species ↔
      TaxRank.from_str "species" = .ok .Species) := by
  have hPad : wsPad "Species" " Species " :=
    ⟨[' '], [' '], by intro c hc; simp_all; rfl,
      by intro c hc; simp_all; rfl, by decide⟩
  have hCase : caseEq "SPECIES" "species" := by
    unfold caseEq; decide
  exact ⟨hPad, C5_normalization.1 "Species" " Species " hPad .Species,
    hCase, C5_normalization.2.1 "SPECIES" "species" hCase .Species⟩

/-- C6: classical-Latin synonyms parse to the same variant as the
canonical English name: `"regnum"` to `Kingdom`, `"divisio"` to `Phylum`,
`"ordo"` to `Order`, `"familia"` to `Family`, `"genera"` to `Genus`. -/
theorem C6_latin_synonyms :
    TaxRank.from_str "kingdom" = .ok .Kingdom ∧
    TaxRank.from_str "regnum" = .ok .Kingdom ∧
    TaxRank.from_str "phylum" = .ok .Phylum ∧
    TaxRank.from_str "divisio" = .ok .Phylum ∧
    TaxRank.from_str "order" = .ok .Order ∧
    TaxRank.from_str "ordo" = .ok .Order ∧
    TaxRank.from_str "familia" = .ok .Family ∧
    TaxRank.from_str "genera" = .ok .Genus := by decide

/-- C7: the `Unspecified` sentinel round-trips through the string
`"no rank"` in both directions. -/
theorem C7_unspecified_roundtrip :
    TaxRank.from_str "no rank" = .ok .Unspecified ∧
    TaxRank.to_ncbi_rank .Unspecified = "no rank" := by decide

/-- C8: `to_ncbi_rank` is not injective: the distinct non-Linnaean
variants `Strain` and `Section` both map to `"no rank"`, and the round
trip is not the identity on the successfully parsed input `"strain"`. -/
theorem C8_not_injective :
    TaxRank.Strain ≠ TaxRank.Section ∧
    TaxRank.to_ncbi_rank .Strain = "no rank" ∧
    TaxRank.to_ncbi_rank .Section = "no rank" ∧
    TaxRank.from_str "strain" = .ok .Strain ∧
    TaxRank.to_ncbi_rank .Strain ≠ "strain" := by decide

/-- C9: the classical-Latin spelling `"subtribus"` parses to `Tribe`, not
`Subtribe`, while `"subtribe"` parses to `Subtribe`; the two spellings
denote different ranks. -/
theorem C9_subtribus_is_tribe :
    TaxRank.from_str "subtribus" = .ok .Tribe ∧
    TaxRank.from_str "subtribe" = .ok .Subtribe ∧
    TaxRank.Tribe ≠ TaxRank.Subtribe := by decide

/-- C10: a successful parse only ever returns a publicly named variant
from the parse table (`Unspecified` included), never the hidden
`__Nonexhaustive` variant. -/
theorem C10_no_nonexhaustive (s : String) (v : TaxRank)
    (h : TaxRank.from_str s = .ok v) :
    v ∈ parseTableRanks ∧ v ≠ TaxRank.__Nonexhaustive := by
  rcases from_str_spec s with ⟨-, w, hw, he⟩ | ⟨-, he⟩
  · rw [he] at h
    obtain rfl : w = v := by injection h
    refine ⟨hw, ?_⟩
    rintro rfl
    exact absurd hw (by decide)
  · rw [he] at h
    exact absurd h (by simp)

theorem C10_no_nonexhaustive_witness :
    TaxRank.from_str "kingdom" = .ok TaxRank.Kingdom ∧
    TaxRank.Kingdom ∈ parseTableRanks ∧
    TaxRank.Kingdom ≠ TaxRank.__Nonexhaustive :=
  ⟨by decide, C10_no_nonexhaustive "kingdom" .Kingdom (by decide)⟩

end Taxonomy
